import Mathlib

/-!
Verification of the multilspy LSP client runtime (`multilspy/lsp_protocol_handler/server.py`
and `multilspy/multilspy_config.py`) against its natural-language specification.

The Python source is shallowly embedded: JSON payloads become an inductive `JVal`,
the stateful `LanguageServerHandler` becomes a `Handler` record threaded through
executable step functions, effectful calls (writes to the child's stdin, logger
invocations) become explicit event traces, and exceptions become explicit error
values mirroring each try/except in the source.
-/

namespace Multilspy

/-! ## JSON data model

A JSON value as produced by Python's `json.loads` / consumed by `json.dumps`.
Numbers are modelled as integers (the payloads of this protocol layer carry only
integral numbers); object fields keep insertion order, as Python dicts do. An
inductive value is necessarily acyclic, so `check_circular=False` in the source's
`json.dumps` call has no observable effect here.
-/
inductive JVal where
  | null : JVal
  | bool (b : Bool) : JVal
  | num (n : Int) : JVal
  | str (s : String) : JVal
  | arr (xs : List JVal) : JVal
  | obj (kvs : List (String × JVal)) : JVal

/-- Hex digit for code points below 0x20, used by the JSON string escaper. -/
def hexDigit (n : Nat) : Char :=
  if n < 10 then Char.ofNat (48 + n) else Char.ofNat (87 + n)

/-- Escape of one character inside a JSON string literal, following
`json.dumps(..., ensure_ascii=False)`: quote and backslash are escaped, control
characters below 0x20 use the short forms or a 4-digit unicode escape, and every
other character (ASCII or not) is emitted raw. -/
def escapeChar (c : Char) : String :=
  if c = '"' then "\\\""
  else if c = '\\' then "\\\\"
  else if c = '\n' then "\\n"
  else if c = '\r' then "\\r"
  else if c = '\t' then "\\t"
  else if c.toNat = 8 then "\\b"
  else if c.toNat = 12 then "\\f"
  else if c.toNat < 32 then
    String.mk ['\\', 'u', '0', '0', hexDigit (c.toNat / 16), hexDigit (c.toNat % 16)]
  else String.singleton c

/-- JSON string literal: surrounding quotes plus the escaped characters. -/
def quoteJson (s : String) : String :=
  "\"" ++ String.join (s.data.map escapeChar) ++ "\""

mutual

/-- Compact JSON serialization of a value, faithful to the source's
`json.dumps(payload, check_circular=False, ensure_ascii=False, separators=(",", ":"))`:
item separator is a bare comma and key separator a bare colon, so the output
contains no insignificant whitespace. -/
def dumps : JVal → String
  | .null => "null"
  | .bool true => "true"
  | .bool false => "false"
  | .num n => toString n
  | .str s => quoteJson s
  | .arr xs => "[" ++ String.intercalate "," (dumpsArr xs) ++ "]"
  | .obj kvs => "\x7b" ++ String.intercalate "," (dumpsObj kvs) ++ "\x7d"

def dumpsArr : List JVal → List String
  | [] => []
  | x :: xs => dumps x :: dumpsArr xs

def dumpsObj : List (String × JVal) → List String
  | [] => []
  | kv :: kvs => (quoteJson kv.1 ++ ":" ++ dumps kv.2) :: dumpsObj kvs

end

/-- Number of bytes of the UTF-8 encoding of one character. -/
def charUtf8Size (c : Char) : Nat :=
  if c.toNat < 0x80 then 1
  else if c.toNat < 0x800 then 2
  else if c.toNat < 0x10000 then 3
  else 4

/-- Byte length of the UTF-8 encoding of a string; models Python's
`len(s.encode("utf-8"))`. -/
def utf8Len (s : String) : Nat :=
  s.data.foldl (fun n c => n + charUtf8Size c) 0

/-- Embedding of `create_message` (server.py): serialize the payload compactly,
and return the three segments passed to `writelines` — the Content-Length
header, the Content-Type header together with the blank line that ends the
header block, and the body. Segments are kept as strings; the Content-Length
value is the byte count of the UTF-8 encoding of the body. -/
def create_message (payload : JVal) : String × String × String :=
  let body := dumps payload
  ("Content-Length: " ++ toString (utf8Len body) ++ "\r\n",
   "Content-Type: application/vscode-jsonrpc; charset=utf-8\r\n\r\n",
   body)

/-- Concatenation of the three segments of `create_message`: the full byte
sequence `_send_payload` writes to the child's stdin for one payload. -/
def sentWireBytes (payload : JVal) : String :=
  (create_message payload).1 ++ (create_message payload).2.1 ++ (create_message payload).2.2

/-- Wire format as the specification words it: the body serialized as compact
JSON, preceded by the header `Content-Length: <N>` + CRLF with N the UTF-8 byte
length of the body, then the header `Content-Type: application/vscode-jsonrpc; charset=utf-8`
+ CRLF, then a bare CRLF, then the body. Written from the spec sentence for
comparison with the source-derived `sentWireBytes`. -/
def specWireBytes (payload : JVal) : String :=
  let body := dumps payload
  "Content-Length: " ++ toString (utf8Len body) ++ "\r\n" ++
  "Content-Type: application/vscode-jsonrpc; charset=utf-8" ++ "\r\n" ++
  "\r\n" ++ body

/-! ## Inbound framing: the stdout read loop (`run_forever` / `content_length`)

The child's stdout is modelled as a list of bytes (each a `Nat` below 256).
`readline` and `readexactly` of the asyncio `StreamReader` become pure
functions on that list; the loop is written with explicit fuel, with a
fuel-sufficiency lemma showing `stream.length + 1` steps always complete.
-/

/-- Bytes of an ASCII string, for writing concrete byte streams. -/
def asciiBytes (s : String) : List Nat :=
  s.data.map (fun c => c.toNat)

/-- ASCII whitespace stripped by Python's `bytes.strip()`:
space, tab, newline, carriage return, vertical tab, form feed. -/
def isPyWS (b : Nat) : Bool :=
  b = 32 || b = 9 || b = 10 || b = 13 || b = 11 || b = 12

/-- Embedding of `line.strip()` on bytes: drop ASCII whitespace from both ends. -/
def stripBytes (bs : List Nat) : List Nat :=
  ((bs.dropWhile isPyWS).reverse.dropWhile isPyWS).reverse

/-- Digits of a nonempty decimal byte string, or `none` when some byte is not
an ASCII digit. -/
def digitsToNat : List Nat → Option Nat
  | [] => none
  | bs => bs.foldl (fun acc b =>
      match acc with
      | none => none
      | some n => if 48 ≤ b ∧ b ≤ 57 then some (n * 10 + (b - 48)) else none)
      (some 0)

/-- Embedding of Python's `int(value)` on an already-stripped byte string:
an optional sign followed by decimal digits. (Python also accepts underscore
digit grouping, which no header produced by an LSP server uses; underscores
are not modelled and are rejected here.) -/
def parsePyInt (bs : List Nat) : Option Int :=
  match bs with
  | 43 :: rest => (digitsToNat rest).map Int.ofNat
  | 45 :: rest => (digitsToNat rest).map (fun n => -(n : Int))
  | _ => (digitsToNat bs).map Int.ofNat

/-- Byte string of the `CONTENT_LENGTH` constant "Content-Length: ". -/
def contentLengthHeader : List Nat := asciiBytes "Content-Length: "

/-- Embedding of `content_length` (server.py): on a line starting with
"Content-Length: ", strip the remainder and parse it as an int, re-raising
`ValueError` (the `.error` case) when the parse fails; on any other line
return `none`. (The source splits on all occurrences of the header text and
unpacks two parts; a second occurrence makes either the unpack or the int
parse raise `ValueError`, and taking the suffix after the first occurrence
gives the same outcome in every case.) -/
def content_length (line : List Nat) : Except String (Option Int) :=
  if contentLengthHeader.isPrefixOf line then
    let value := stripBytes (line.drop contentLengthHeader.length)
    match parsePyInt value with
    | some n => .ok (some n)
    | none => .error "Invalid Content-Length header"
  else .ok none

/-- Embedding of `StreamReader.readline`: the bytes up to and including the
first newline (byte 10), or the whole remaining stream when no newline is
left; returns the line and the rest of the stream. -/
def readLine : List Nat → List Nat × List Nat
  | [] => ([], [])
  | b :: bs =>
    if b = 10 then ([10], bs)
    else
      let p := readLine bs
      (b :: p.1, p.2)

/-- Embedding of the inner `while line and line.strip(): line = readline()`
of `run_forever`, entered right after the Content-Length line: read lines
until a line that is empty (EOF) or whitespace-only (the blank line ending
the header block); returns that line and the rest of the stream. Fuel-driven;
`skipToBlank` supplies sufficient fuel. -/
def skipToBlankGo : Nat → List Nat → List Nat × List Nat
  | 0, s => ([], s)
  | fuel + 1, s =>
    let p := readLine s
    if p.1.isEmpty || (stripBytes p.1).isEmpty then (p.1, p.2)
    else skipToBlankGo fuel p.2

/-- Header-block skipper with fuel `length + 1`, which the fuel lemmas show
is always sufficient. -/
def skipToBlank (s : List Nat) : List Nat × List Nat :=
  skipToBlankGo (s.length + 1) s

/-- Observable events of the read loop: a message body handed to
`_handle_body` (one spawned task per frame), or a log message. The source's
`run_forever` contains no logging call, so no execution produces a `logged`
event; the constructor exists so that silence is expressible. -/
inductive RunEvent where
  | dispatched (body : List Nat)
  | logged (msg : String)
deriving Repr, DecidableEq

/-- Exceptions that escape the read loop's `try` (its `except` clause catches
only `BrokenPipeError`, `ConnectionResetError` and `StopLoopException`):
`readexactly` hitting EOF early raises `IncompleteReadError`, and a negative
byte count makes `readexactly` raise `ValueError`. -/
inductive RunErr where
  | incompleteRead
  | invalidCount
deriving Repr, DecidableEq

/-- One fuel-indexed pass of the `run_forever` loop body (server.py lines
374-391): read a line; a line whose `content_length` raises is skipped
(`except ValueError: continue`, with no logging), a non-header line is
skipped silently (`num_bytes is None: continue`); otherwise skip the rest of
the header block, read exactly `num_bytes` bytes of body and dispatch them,
then loop. -/
def loopGo : Nat → List Nat → List RunEvent → Except RunErr (List RunEvent)
  | 0, _, acc => .ok acc
  | fuel + 1, stream, acc =>
    if stream.isEmpty then .ok acc
    else
      let p := readLine stream
      match content_length p.1 with
      | .error _ => loopGo fuel p.2 acc
      | .ok none => loopGo fuel p.2 acc
      | .ok (some n) =>
        let q := skipToBlank p.2
        if q.1.isEmpty then loopGo fuel q.2 acc
        else if n < 0 then .error .invalidCount
        else if q.2.length < n.toNat then .error .incompleteRead
        else loopGo fuel (q.2.drop n.toNat) (acc ++ [.dispatched (q.2.take n.toNat)])

/-- Embedding of `run_forever` restricted to its observable behaviour on a
given stdout byte stream: the events produced until EOF, or the exception
that escapes the loop. -/
def run_forever (stream : List Nat) : Except RunErr (List RunEvent) :=
  loopGo (stream.length + 1) stream []

/-- Log messages among a list of run events. -/
def runLogs (evs : List RunEvent) : List String :=
  evs.filterMap fun e =>
    match e with
    | .logged m => some m
    | .dispatched _ => none

/-- Bodies dispatched to `_handle_body` among a list of run events. -/
def runBodies (evs : List RunEvent) : List (List Nat) :=
  evs.filterMap fun e =>
    match e with
    | .dispatched b => some b
    | .logged _ => none

/-! ## Language configuration (`multilspy_config.py`) -/

/-- Embedding of the `Language` enum from `multilspy_config.py`. The source
enum declares exactly these six members. -/
inductive Language where
  | CSHARP | PYTHON | RUST | JAVA | TYPESCRIPT | JAVASCRIPT
deriving Repr, DecidableEq

/-- String value of each `Language` member, as declared in the source enum. -/
def Language.value : Language → String
  | .CSHARP => "csharp"
  | .PYTHON => "python"
  | .RUST => "rust"
  | .JAVA => "java"
  | .TYPESCRIPT => "typescript"
  | .JAVASCRIPT => "javascript"

/-- All members of the `Language` enum, in declaration order. -/
def Language.members : List Language :=
  [.CSHARP, .PYTHON, .RUST, .JAVA, .TYPESCRIPT, .JAVASCRIPT]

/-- Value-based enum lookup, modelling Python's `Language("tag")`: returns the
member whose value equals the tag, and `none` where Python raises `ValueError`. -/
def Language.fromValue (s : String) : Option Language :=
  Language.members.find? (fun l => l.value = s)

/-! ## JSON value helpers (Python dict/`.get` semantics after `json.loads`) -/

/-- Value of a key in a JSON object, `none` when the key is absent or the
value is not an object. `json.loads` gives objects unique keys. -/
def lookupKey (p : JVal) (k : String) : Option JVal :=
  match p with
  | .obj kvs => (kvs.find? (fun kv => kv.1 = k)).map (fun kv => kv.2)
  | _ => none

/-- Embedding of `key in payload`. -/
def hasKey (p : JVal) (k : String) : Bool :=
  (lookupKey p k).isSome

/-- Embedding of `payload.get(key)`: `None` (JSON null) when absent. After
`json.loads` a JSON `null` value and an absent key both surface as Python
`None`, so `.null` represents either. -/
def getD (p : JVal) (k : String) : JVal :=
  (lookupKey p k).getD .null

/-- Embedding of `payload.get(key, default)` with a JSON default. -/
def getDefault (p : JVal) (k : String) (d : JVal) : JVal :=
  (lookupKey p k).getD d

/-- Keys of the pending-response dict are the ints allocated by
`send_request`. A response's `"id"` value matches such a key under Python
equality when it is that int — or the bools `True`/`False`, which Python
equates with `1`/`0`. Other JSON values never equal an int key. -/
def pyIntKey : JVal → Option Int
  | .num n => some n
  | .bool b => some (if b then 1 else 0)
  | _ => none

mutual

/-- Python `repr` of a JSON-shaped value, used only inside f-string log
messages. Quote/control-character escaping inside string reprs is not
modelled (no claim depends on it). -/
def pyRepr : JVal → String
  | .null => "None"
  | .bool true => "True"
  | .bool false => "False"
  | .num n => toString n
  | .str s => "'" ++ s ++ "'"
  | .arr xs => "[" ++ String.intercalate ", " (pyReprArr xs) ++ "]"
  | .obj kvs => "\x7b" ++ String.intercalate ", " (pyReprObj kvs) ++ "\x7d"

def pyReprArr : List JVal → List String
  | [] => []
  | x :: xs => pyRepr x :: pyReprArr xs

def pyReprObj : List (String × JVal) → List String
  | [] => []
  | kv :: kvs => ("'" ++ kv.1 ++ "': " ++ pyRepr kv.2) :: pyReprObj kvs

end

/-- Python `str` of a JSON-shaped value (what an f-string interpolates):
strings verbatim, everything else via `repr`. -/
def pyStr : JVal → String
  | .str s => s
  | v => pyRepr v

/-! ## Protocol errors

The `ErrorCodes` enum lives in `lsp_types.py`, which is not present under
src/ (server.py imports it). Modelled from the spec: the spec mandates
"Strict LSP over JSON-RPC 2.0", whose standard assigns these numeric codes;
only the members server.py uses are needed.
-/

/-- Modelled from the spec: members of the `ErrorCodes` enum of the absent
`lsp_types.py` that server.py references, plus the remaining JSON-RPC 2.0
standard codes. -/
inductive ErrorCodes where
  | ParseError | InvalidRequest | MethodNotFound | InvalidParams | InternalError
deriving Repr, DecidableEq

/-- Modelled from the spec: the JSON-RPC 2.0 standard numeric values of the
error codes, as the `IntEnum` in the absent `lsp_types.py` carries them. -/
def ErrorCodes.toInt : ErrorCodes → Int
  | .ParseError => -32700
  | .InvalidRequest => -32600
  | .MethodNotFound => -32601
  | .InvalidParams => -32602
  | .InternalError => -32603

/-- Exceptions of the embedded Python fragments that can cross a function
boundary before being caught: a dict lookup/pop failure. The argument is the
offending key (what `KeyError` carries). -/
inductive PyErr where
  | keyError (k : JVal)

/-- Embedding of the `Error` exception class (server.py): a code and a
message. Locally raised errors carry an `ErrorCodes` value and a string;
errors parsed from a server response carry whatever JSON the response held,
so both fields are kept as JSON values. -/
structure Error where
  code : JVal
  message : JVal

/-- Local construction `Error(code, message)` with an `ErrorCodes` member,
which serializes as its numeric value. -/
def Error.ofCode (c : ErrorCodes) (msg : String) : Error :=
  ⟨.num c.toInt, .str msg⟩

/-- Embedding of `Error.to_lsp`. -/
def Error.to_lsp (e : Error) : JVal :=
  .obj [("code", e.code), ("message", e.message)]

/-- Embedding of `Error.from_lsp`: reads `d["code"]` and `d["message"]`,
raising `KeyError` when one is absent. -/
def Error.from_lsp (d : JVal) : Except PyErr Error :=
  match lookupKey d "code" with
  | none => .error (.keyError (.str "code"))
  | some c =>
    match lookupKey d "message" with
    | none => .error (.keyError (.str "message"))
    | some m => .ok ⟨c, m⟩

/-! ## Payload constructors (server.py lines 83-96) -/

/-- Embedding of `make_response`. -/
def make_response (request_id : JVal) (params : JVal) : JVal :=
  .obj [("jsonrpc", .str "2.0"), ("id", request_id), ("result", params)]

/-- Embedding of `make_error_response`. -/
def make_error_response (request_id : JVal) (err : Error) : JVal :=
  .obj [("jsonrpc", .str "2.0"), ("id", request_id), ("error", err.to_lsp)]

/-- Embedding of `make_notification`. A notification payload has no "id" key. -/
def make_notification (method : String) (params : JVal) : JVal :=
  .obj [("jsonrpc", .str "2.0"), ("method", .str method), ("params", params)]

/-- Embedding of `make_request`. -/
def make_request (method : String) (request_id : Int) (params : JVal) : JVal :=
  .obj [("jsonrpc", .str "2.0"), ("method", .str method), ("id", .num request_id), ("params", params)]

/-! ## Handler state -/

/-- Embedding of the `Request` class (server.py lines 119-133): the slot a
sender awaits on. `notified` records whether `cv.notify()` has run, i.e.
whether the sender suspended in `send_request` has been resumed. -/
structure Request where
  result : Option JVal := none
  error : Option Error := none
  notified : Bool := false

/-- Result of a registered server→client request callback: a returned value,
a raised protocol `Error`, or any other raised `Exception` with its
`str(ex)`. (`_request_handler` catches exactly these two exception classes.) -/
inductive CbResult where
  | ok (r : JVal)
  | raiseError (e : Error)
  | raiseExc (msg : String)

/-- A registered server→client request callback. -/
abbrev RequestCb := JVal → CbResult

/-- Result of a registered notification callback: normal return, a raised
`asyncio.CancelledError`, or any other raised `Exception` with its `str(ex)`. -/
inductive NotifResult where
  | ok
  | cancelled
  | raiseExc (msg : String)

/-- A registered notification callback. -/
abbrev NotifCb := JVal → NotifResult

/-- The stdio pipe handles of the child process that the handler checks
before writing (`self.process.stdin`) or signalling the read loop
(`self.process.stdout`). -/
structure ProcessHandle where
  hasStdin : Bool := true
  hasStdout : Bool := true
deriving Repr, DecidableEq

/-- Log messages passed to `self.logger`. Messages the source assembles with
f-string interpolation of Python objects are kept structured (the reprs of
the interpolated objects are not the subject of any claim). -/
inductive LogMsg where
  | plain (s : String)
  | payloadError (err : PyErr)
  | unknownPayload (p : JVal)
  | handlerError (ty : Nat) (message : String) (method : JVal) (params : JVal)

/-- Observable actions of the handler: a payload written to the child's
stdin (`_send_payload` / `_send_payload_sync`, which also mirror the payload
to the logger), the sender's suspension on `request.cv.wait()`, the
server→client trace call of `_receive_payload`, a `self._log`/`self.logger`
call, and the read-loop stop sentinel `set_exception(StopLoopException())`. -/
inductive Event where
  | sent (p : JVal)
  | awaitResponse (id : Int)
  | recvLogged (p : JVal)
  | clientLog (m : LogMsg)
  | stopSignal

/-- Embedding of the `LanguageServerHandler` state set up by `__init__`
(server.py lines 185-212). The pending-response dict `_response_handlers` is
an association list keyed by the allocated int request ids; slots popped by
`_response_handler` move to `resolvedRequests`, since the (resumed) sender
still holds them. Task handles are abstracted to their dict keys. -/
structure Handler where
  process : Option ProcessHandle := none
  received_shutdown : Bool := false
  request_id : Int := 1
  response_handlers : List (Int × Request) := []
  resolvedRequests : List (Int × Request) := []
  on_request_handlers : List (String × RequestCb) := []
  on_notification_handlers : List (String × NotifCb) := []
  hasLogger : Bool := true
  tasks : List Nat := []
  task_counter : Nat := 0

/-- Dict write `d[k] = v`: replace the value when the key exists, append
otherwise. -/
def insertAssoc (t : List (Int × Request)) (k : Int) (v : Request) : List (Int × Request) :=
  if t.any (fun kv => kv.1 = k) then
    t.map (fun kv => if kv.1 = k then (k, v) else kv)
  else t ++ [(k, v)]

/-- Dict `d.pop(k)`: the removed value and the remaining dict, `none` where
Python raises `KeyError`. -/
def popAssoc (t : List (Int × Request)) (k : Int) : Option (Request × List (Int × Request)) :=
  match t.find? (fun kv => kv.1 = k) with
  | none => none
  | some kv => some (kv.2, t.filter (fun kv2 => kv2.1 ≠ k))

/-- Callback lookup `handlers.get(method)`: only a string method can match
the string-keyed dict. -/
def lookupReqCb (hs : List (String × RequestCb)) : JVal → Option RequestCb
  | .str m => (hs.find? (fun kv => kv.1 = m)).map (fun kv => kv.2)
  | _ => none

/-- Notification callback lookup `handlers.get(method)`. -/
def lookupNotifCb (hs : List (String × NotifCb)) : JVal → Option NotifCb
  | .str m => (hs.find? (fun kv => kv.1 = m)).map (fun kv => kv.2)
  | _ => none

/-- Embedding of `Request.on_result`: store the result and notify the waiter. -/
def Request.on_result (r : Request) (params : JVal) : Request :=
  { r with result := some params, notified := true }

/-- Embedding of `Request.on_error`: store the error and notify the waiter. -/
def Request.on_error (r : Request) (err : Error) : Request :=
  { r with error := some err, notified := true }

/-! ## Handler operations -/

/-- Embedding of `Handler._log`: forwards to the logger when one is set,
otherwise does nothing. -/
def Handler.logEvents (s : Handler) (m : LogMsg) : List Event :=
  if s.hasLogger then [.clientLog m] else []

/-- Write path shared by `_send_payload` and `_send_payload_sync`: nothing
happens without a process or its stdin; otherwise the payload is logged
(when a logger is set) and its `create_message` segments are written in one
`writelines` call, recorded as one `sent` event. -/
def Handler.sendPayloadEvents (s : Handler) (p : JVal) : List Event :=
  match s.process with
  | none => []
  | some pr => if pr.hasStdin then [.sent p] else []

/-- Embedding of `send_notification`: fire-and-forget synchronous write, no
id allocated, no state change. -/
def Handler.send_notification (s : Handler) (method : String) (params : JVal) : Handler × List Event :=
  (s, s.sendPayloadEvents (make_notification method params))

/-- Task creation for the deferred `_send_payload` of `send_response` /
`send_error_response`: a new task key is recorded and the payload's eventual
write is recorded inline. -/
def Handler.spawnSend (s : Handler) (p : JVal) : Handler × List Event :=
  ({ s with tasks := s.tasks ++ [s.task_counter], task_counter := s.task_counter + 1 },
   s.sendPayloadEvents p)

/-- Embedding of `send_response`. -/
def Handler.send_response (s : Handler) (request_id : JVal) (params : JVal) : Handler × List Event :=
  s.spawnSend (make_response request_id params)

/-- Embedding of `send_error_response`. -/
def Handler.send_error_response (s : Handler) (request_id : JVal) (err : Error) : Handler × List Event :=
  s.spawnSend (make_error_response request_id err)

/-- Embedding of the synchronous prefix of `send_request` (server.py lines
465-475): allocate the next request id, bump the counter, register a fresh
pending slot under that id, write the request payload, and suspend on
`request.cv.wait()` (the final `awaitResponse` event). The suspended
remainder — re-raising a delivered `Error` or returning the result — acts on
the slot that `_response_handler` later resolves. -/
def Handler.send_request (s : Handler) (method : String) (params : JVal) : Handler × List Event :=
  let rid := s.request_id
  ({ s with request_id := s.request_id + 1,
            response_handlers := insertAssoc s.response_handlers rid ⟨none, none, false⟩ },
   s.sendPayloadEvents (make_request method rid params) ++ [.awaitResponse rid])

/-- Embedding of `_response_handler` (server.py lines 515-525): pop the
pending slot for `response["id"]` — `KeyError` when no such entry — then
deliver result, error, or `InvalidRequest` for an ill-formed response. The
third component is the exception escaping to `_receive_payload`'s catch, and
state mutations made before a raise persist. -/
def Handler.response_handler (s : Handler) (response : JVal) : Handler × List Event × Option PyErr :=
  let idVal := getD response "id"
  match pyIntKey idVal with
  | none => (s, [], some (.keyError idVal))
  | some k =>
    match popAssoc s.response_handlers k with
    | none => (s, [], some (.keyError idVal))
    | some (request, rest) =>
      if hasKey response "result" && !hasKey response "error" then
        ({ s with response_handlers := rest,
                  resolvedRequests := s.resolvedRequests ++ [(k, request.on_result (getD response "result"))] },
         [], none)
      else if !hasKey response "result" && hasKey response "error" then
        match Error.from_lsp (getD response "error") with
        | .ok err =>
          ({ s with response_handlers := rest,
                    resolvedRequests := s.resolvedRequests ++ [(k, request.on_error err)] },
           [], none)
        | .error e =>
          ({ s with response_handlers := rest,
                    resolvedRequests := s.resolvedRequests ++ [(k, request)] },
           [], some e)
      else
        ({ s with response_handlers := rest,
                  resolvedRequests := s.resolvedRequests ++ [(k, request.on_error (Error.ofCode .InvalidRequest ""))] },
         [], none)

/-- Embedding of `_request_handler` (server.py lines 527-549): with no
registered handler reply with `MethodNotFound`; a raised protocol `Error`
replies with that error; any other exception replies with `InternalError`
carrying `str(ex)`; a normal return replies with the result. -/
def Handler.request_handler (s : Handler) (response : JVal) : Handler × List Event × Option PyErr :=
  let method := getDefault response "method" (.str "")
  let params := getD response "params"
  let request_id := getD response "id"
  match lookupReqCb s.on_request_handlers method with
  | none =>
    let r := s.send_error_response request_id
      (Error.ofCode .MethodNotFound ("method '" ++ pyStr method ++ "' not handled on client."))
    (r.1, r.2, none)
  | some handler =>
    match handler params with
    | .ok result =>
      let r := s.send_response request_id result
      (r.1, r.2, none)
    | .raiseError ex =>
      let r := s.send_error_response request_id ex
      (r.1, r.2, none)
    | .raiseExc msg =>
      let r := s.send_error_response request_id (Error.ofCode .InternalError msg)
      (r.1, r.2, none)

/-- Embedding of `_notification_handler` (server.py lines 551-578): with no
registered handler, `self._log(f"unhandled {method}")` and return; a raised
`asyncio.CancelledError` is swallowed; any other exception is forwarded to
the logger — as the `str` of a dict with the error message type, the
exception text, the method and the params — unless shutdown has been
received or no logger is set. -/
def Handler.notification_handler (s : Handler) (response : JVal) : Handler × List Event × Option PyErr :=
  let method := getDefault response "method" (.str "")
  let params := getD response "params"
  match lookupNotifCb s.on_notification_handlers method with
  | none => (s, s.logEvents (.plain ("unhandled " ++ pyStr method)), none)
  | some handler =>
    match handler params with
    | .ok => (s, [], none)
    | .cancelled => (s, [], none)
    | .raiseExc msg =>
      if !s.received_shutdown && s.hasLogger then
        (s, [.clientLog (.handlerError 1 msg method params)], none)
      else (s, [], none)

/-- Embedding of `_receive_payload` (server.py lines 422-439): trace the
inbound payload to the logger, dispatch on the presence of "method" and
"id", and catch any exception from the dispatched handler, logging
`Error handling server payload: ...`. -/
def Handler.receive_payload (s : Handler) (payload : JVal) : Handler × List Event :=
  let trace := if s.hasLogger then [Event.recvLogged payload] else []
  let r :=
    if hasKey payload "method" then
      if hasKey payload "id" then s.request_handler payload
      else s.notification_handler payload
    else if hasKey payload "id" then s.response_handler payload
    else (s, s.logEvents (.unknownPayload payload), none)
  match r.2.2 with
  | none => (r.1, trace ++ r.2.1)
  | some e => (r.1, trace ++ r.2.1 ++ r.1.logEvents (.payloadError e))

/-- Embedding of `stop` (server.py lines 238-268) at the handler-state
level: `_cancel_pending_tasks` cancels every task and clears the task dict,
then the process handle is dropped and `_cleanup_process` runs on it (its
signalling behaviour is modelled separately on `ProcWorld`). No other field
is touched. -/
def Handler.stop (s : Handler) : Handler :=
  { s with tasks := [], process := none }

/-- Modelled from the spec: `LspRequest.shutdown` lives in the absent
`lsp_requests.py`; per spec §4.2 it sends the LSP `shutdown` request (via
`send_request`) and awaits its reply. -/
def LspRequest.shutdown (s : Handler) : Handler × List Event :=
  s.send_request "shutdown" .null

/-- Modelled from the spec: `LspNotification.exit` lives in the absent
`lsp_requests.py`; per spec §4.2 it sends `exit` as a notification (via
`send_notification`). -/
def LspNotification.exit (s : Handler) : Handler × List Event :=
  s.send_notification "exit" .null

/-- Embedding of `shutdown` (server.py lines 348-359): await the `shutdown`
request's reply, latch `_received_shutdown`, send the `exit` notification,
and then — when the process and its stdout exist — plant the
`StopLoopException` sentinel that stops the read loop. -/
def Handler.shutdown (s : Handler) : Handler × List Event :=
  let r1 := LspRequest.shutdown s
  let s1 := { r1.1 with received_shutdown := true }
  let r2 := LspNotification.exit s1
  let stopEvs :=
    match s1.process with
    | some p => if p.hasStdout then [Event.stopSignal] else []
    | none => []
  (r2.1, r1.2 ++ r2.2 ++ stopEvs)

/-! ## Session operation sequences (for the request-id invariant) -/

/-- An operation a session can perform on the handler between two points in
time: the client sends a request or a notification, an inbound payload is
dispatched, the session shuts down, or teardown runs. -/
inductive Op where
  | sendReq (method : String) (params : JVal)
  | notify (method : String) (params : JVal)
  | recv (payload : JVal)
  | shutdownOp
  | stopOp

/-- One operation applied to the handler state. -/
def Handler.stepOp (s : Handler) : Op → Handler × List Event
  | .sendReq m p => s.send_request m p
  | .notify m p => s.send_notification m p
  | .recv p => s.receive_payload p
  | .shutdownOp => s.shutdown
  | .stopOp => (s.stop, [])

/-- Handler state after a sequence of operations. -/
def runOps (s : Handler) : List Op → Handler
  | [] => s
  | op :: ops => runOps (s.stepOp op).1 ops

/-- Request ids allocated across a sequence of operations, in allocation
order: `send_request` allocates the current counter value, once per
`sendReq` and once inside `shutdownOp` (whose `shutdown` request also runs
through `send_request`). -/
def sentIds (s : Handler) : List Op → List Int
  | [] => []
  | op :: ops =>
    match op with
    | .sendReq _ _ => s.request_id :: sentIds (s.stepOp op).1 ops
    | .shutdownOp => s.request_id :: sentIds (s.stepOp op).1 ops
    | _ => sentIds (s.stepOp op).1 ops

/-! ## Process teardown world (`_cleanup_process`, `_terminate_or_kill_process`,
`_signal_process_tree`) -/

/-- Teardown actions in the order they are attempted: a signal delivery
attempt to one pid with "terminate" or "kill" (`ok` false when the attempt
raised; the exception is swallowed either way), a bounded wait on process
exit with its timeout in seconds, a pipe close attempt, and the final grace
sleep. -/
inductive SigEvent where
  | signal (pid : Nat) (method : String) (ok : Bool)
  | waitFor (timeout : Nat)
  | closePipe (name : String) (ok : Bool)
  | sleepGrace
deriving Repr, DecidableEq

/-- What `psutil` reports for the child at one enumeration instant:
whether the process is running and the pids of `children(recursive=True)`. -/
structure ProcView where
  running : Bool
  children : List Nat
deriving Repr, DecidableEq

/-- The environment `_cleanup_process` runs against: the child's pid and
returncode, whether `psutil.Process(pid)` succeeds, the process tree as
enumerated at terminate-signal time and (separately, since the source
re-enumerates) at kill-signal time, whether the 10-second wait sees the
process exit, and oracles for which signal deliveries and pipe closes raise. -/
structure ProcWorld where
  pid : Nat
  returncode : Option Int
  psutilAvail : Bool
  viewAtTerminate : ProcView
  exitsAfterTerminate : Bool
  viewAtKill : ProcView
  raisesOnSignal : Nat → String → Bool
  raisesOnClose : String → Bool

/-- A `try: getattr(proc, method)() except ...: pass` signal attempt. -/
def trySig (w : ProcWorld) (pid : Nat) (m : String) : SigEvent :=
  .signal pid m (!w.raisesOnSignal pid m)

/-- Embedding of `_safely_close_pipe`: a close attempt whose exception is
swallowed. -/
def tryClose (w : ProcWorld) (name : String) : SigEvent :=
  .closePipe name (!w.raisesOnClose name)

/-- Embedding of `_signal_process_tree` (server.py lines 315-345): when
`psutil` yields a running parent, signal every recursively-enumerated child
first and the parent last; otherwise fall back to signalling the process
handle directly. Every attempt tolerates exceptions. -/
def signal_process_tree (w : ProcWorld) (terminate : Bool) : List SigEvent :=
  let m := if terminate then "terminate" else "kill"
  let view := if terminate then w.viewAtTerminate else w.viewAtKill
  if w.psutilAvail && view.running then
    (view.children.map (fun c => trySig w c m)) ++ [trySig w w.pid m]
  else [trySig w w.pid m]

/-- Embedding of `_terminate_or_kill_process` (server.py lines 298-313):
terminate the tree, wait up to 10 seconds; when the process has not exited,
kill the (re-enumerated) tree and wait up to 2 more seconds. -/
def terminate_or_kill_process (w : ProcWorld) : List SigEvent :=
  signal_process_tree w true ++ [.waitFor 10] ++
  (if w.exitsAfterTerminate then []
   else signal_process_tree w false ++ [.waitFor 2])

/-- Embedding of `_cleanup_process` (server.py lines 270-288): close stdin,
terminate or kill the process when it has not already exited, close stdout
and stderr, and sleep half a second so the OS releases the handles. -/
def cleanup_process (w : ProcWorld) : List SigEvent :=
  [tryClose w "stdin"] ++
  (if w.returncode = none then terminate_or_kill_process w else []) ++
  [tryClose w "stdout", tryClose w "stderr", .sleepGrace]

/-- Attempt shapes of teardown events with the raise outcomes erased, for
stating that exceptions never change which actions are attempted. -/
def attemptsOf (evs : List SigEvent) : List SigEvent :=
  evs.map fun e =>
    match e with
    | .signal pid m _ => .signal pid m true
    | .closePipe n _ => .closePipe n true
    | other => other

/-- Teardown sequence as the claim words it, for comparison with the
source-derived `cleanup_process`: with the child still alive, a graceful
terminate goes to every descendant enumerated at signal time and to the
child, followed by a wait of up to 10 seconds; if the process is then still
alive, a kill goes to the same process tree (re-enumerated) followed by a
wait of up to 2 seconds; stdin is closed before the signalling and
stdout/stderr after. -/
def specTeardown (w : ProcWorld) : List SigEvent :=
  [tryClose w "stdin"] ++
  (w.viewAtTerminate.children.map (fun c => trySig w c "terminate") ++ [trySig w w.pid "terminate"]) ++
  [.waitFor 10] ++
  (if w.exitsAfterTerminate then []
   else (w.viewAtKill.children.map (fun c => trySig w c "kill") ++ [trySig w w.pid "kill"]) ++ [.waitFor 2]) ++
  [tryClose w "stdout", tryClose w "stderr", .sleepGrace]

/-! ## Event projections and spec-side dispatch descriptions -/

/-- Payloads written to the child among a list of events. -/
def sentPayloads (evs : List Event) : List JVal :=
  evs.filterMap fun e =>
    match e with
    | .sent p => some p
    | _ => none

/-- Reply to a server→client request as the claim words it: no registered
handler for the method gives a method-not-found error response; a handler
raising a protocol `Error` gives an error response with that error's code; a
handler raising any other exception gives an `InternalError` response
carrying the exception's message; otherwise the handler's result is
returned. Responses are spelled as raw JSON-RPC objects (JSON-RPC error
codes: method-not-found is -32601, internal error -32603) for comparison
with the source-derived dispatch. -/
def specRequestReply (s : Handler) (payload : JVal) : List JVal :=
  let method := getDefault payload "method" (.str "")
  let rid := getD payload "id"
  match lookupReqCb s.on_request_handlers method with
  | none =>
    [.obj [("jsonrpc", .str "2.0"), ("id", rid),
           ("error", .obj [("code", .num (-32601)),
                           ("message", .str ("method '" ++ pyStr method ++ "' not handled on client."))])]]
  | some handler =>
    match handler (getD payload "params") with
    | .ok r => [.obj [("jsonrpc", .str "2.0"), ("id", rid), ("result", r)]]
    | .raiseError e =>
      [.obj [("jsonrpc", .str "2.0"), ("id", rid),
             ("error", .obj [("code", e.code), ("message", e.message)])]]
    | .raiseExc msg =>
      [.obj [("jsonrpc", .str "2.0"), ("id", rid),
             ("error", .obj [("code", .num (-32603)), ("message", .str msg)])]]

/-- Observable effect of dispatching a notification, as the amended claim
words it: the registered handler runs; with none registered the notification
is dropped after the log line "unhandled <method>"; a cancellation-style
exception is swallowed silently; any other handler exception is logged
(message, method and params) unless shutdown has been received; no reply is
ever sent. -/
def specNotifEvents (s : Handler) (payload : JVal) : List Event :=
  let method := getDefault payload "method" (.str "")
  let params := getD payload "params"
  match lookupNotifCb s.on_notification_handlers method with
  | none => if s.hasLogger then [.clientLog (.plain ("unhandled " ++ pyStr method))] else []
  | some handler =>
    match handler params with
    | .ok => []
    | .cancelled => []
    | .raiseExc msg =>
      if !s.received_shutdown && s.hasLogger then
        [.clientLog (.handlerError 1 msg method params)]
      else []

/-! ## Helper lemmas -/

theorem strAppendAssoc (a b c : String) : a ++ b ++ c = a ++ (b ++ c) := by
  apply String.ext
  simp [List.append_assoc]

/-! ## Claims -/

/-- C2: for every payload sent to the server, the bytes written are exactly
the payload's compact JSON serialization preceded by the Content-Length
header (whose value is the UTF-8 byte length of the body), then the
Content-Type header, then an empty line, each line CRLF-terminated. -/
theorem claim2_wire_format (payload : JVal) :
    sentWireBytes payload = specWireBytes payload := by
  show ("Content-Length: " ++ toString (utf8Len (dumps payload)) ++ "\r\n") ++
      "Content-Type: application/vscode-jsonrpc; charset=utf-8\r\n\r\n" ++ dumps payload =
      _
  rw [show ("Content-Type: application/vscode-jsonrpc; charset=utf-8\r\n\r\n" : String) =
      "Content-Type: application/vscode-jsonrpc; charset=utf-8" ++ "\r\n" ++ "\r\n" from rfl]
  simp only [specWireBytes, strAppendAssoc]

/-- C9 (code bug): the `Language` enum recognizes none of the tags kotlin,
go, ruby, dart, cpp, clojure, php, perl, elixir — `Language("kotlin")`
raises `ValueError` — although the claim (and the repository's own tests,
which reference `Language.KOTLIN`, `Language.GO`, `Language.RUBY`) require
them; only the six declared tags construct successfully. -/
theorem claim9_language_tags :
    (["kotlin", "go", "ruby", "dart", "cpp", "clojure", "php", "perl", "elixir"].all
      (fun t => (Language.fromValue t).isNone)) = true ∧
    (["csharp", "python", "rust", "java", "typescript", "javascript"].all
      (fun t => (Language.fromValue t).isSome)) = true := by
  constructor <;> decide

/-- C1 (counterexample): a handler with one outstanding pending request, run
through `stop`: the pending-response table still holds the request,
unresolved — no error was delivered and the sender was never resumed — so
teardown does not fail every pending request with a shutdown error. -/
theorem claim1_counterexample :
    ((Handler.stop { response_handlers := [(1, ⟨none, none, false⟩)] }).response_handlers.all
      (fun kv => kv.2.notified || kv.2.error.isSome)) = false := rfl

/-- C1 (amended): session teardown (`stop`) cancels the reader/handler tasks
and drops the process handle, but leaves the pending-response table — and
every slot in it — untouched: no pending request is failed with a shutdown
error and no caller suspended in `send_request` is resumed by `stop`. -/
theorem claim1_amended (s : Handler) :
    (s.stop).response_handlers = s.response_handlers ∧
    (s.stop).resolvedRequests = s.resolvedRequests ∧
    (s.stop).tasks = [] ∧
    (s.stop).process = none :=
  ⟨rfl, rfl, rfl, rfl⟩

/-- C5: `shutdown` performs, in order: send the LSP `shutdown` request and
suspend until its reply, send `exit` as a notification — a payload with no
"id" key — and only then plant the read-loop stop sentinel. -/
theorem claim5_shutdown_order (s : Handler) (p : ProcessHandle)
    (hp : s.process = some p) (hin : p.hasStdin = true) (hout : p.hasStdout = true) :
    (s.shutdown).2 =
      [.sent (make_request "shutdown" s.request_id .null), .awaitResponse s.request_id,
       .sent (make_notification "exit" .null), .stopSignal] ∧
    hasKey (make_notification "exit" .null) "id" = false := by
  refine ⟨?_, by decide⟩
  simp [Handler.shutdown, LspRequest.shutdown, LspNotification.exit, Handler.send_request,
    Handler.send_notification, Handler.sendPayloadEvents, hp, hin, hout]

/-- C5 (witness): the shutdown order at a concrete live handler. -/
theorem claim5_witness :
    (Handler.shutdown { process := some ⟨true, true⟩ }).2 =
      [.sent (make_request "shutdown" 1 .null), .awaitResponse 1,
       .sent (make_notification "exit" .null), .stopSignal] ∧
    hasKey (make_notification "exit" .null) "id" = false :=
  claim5_shutdown_order { process := some ⟨true, true⟩ } ⟨true, true⟩ rfl rfl rfl

/-- C7 (counterexample): an inbound notification for a method with no
registered handler is not dropped silently — with a logger configured, the
dispatch emits the log line "unhandled foo". -/
theorem claim7_counterexample :
    (Handler.receive_payload {} (.obj [("method", .str "foo")])).2 =
      [.recvLogged (.obj [("method", .str "foo")]),
       .clientLog (.plain "unhandled foo")] := rfl

/-- C7 (amended): an inbound payload with "method" but no "id" runs the
registered notification handler and leaves the handler state unchanged; with
no handler registered it is dropped after the log line "unhandled <method>";
a cancellation-style exception is swallowed; any other handler exception is
logged (message, method, params) unless shutdown has been received; no reply
is sent. -/
theorem claim7_amended (s : Handler) (p : JVal)
    (hm : hasKey p "method" = true) (hi : hasKey p "id" = false) :
    (s.receive_payload p).1 = s ∧
    (s.receive_payload p).2 =
      (if s.hasLogger then [Event.recvLogged p] else []) ++ specNotifEvents s p := by
  have h : (s.notification_handler p).1 = s ∧
      (s.notification_handler p).2.1 = specNotifEvents s p ∧
      (s.notification_handler p).2.2 = none := by
    unfold Handler.notification_handler specNotifEvents Handler.logEvents
    cases hcb : lookupNotifCb s.on_notification_handlers (getDefault p "method" (.str "")) with
    | none => simp [hcb]
    | some cb =>
      cases hr : cb (getD p "params") with
      | ok => simp [hcb, hr]
      | cancelled => simp [hcb, hr]
      | raiseExc msg =>
        by_cases hsd : (!s.received_shutdown && s.hasLogger) = true <;> simp [hcb, hr, hsd]
  unfold Handler.receive_payload
  rw [hm, hi]
  simp [h.1, h.2.1, h.2.2]

/-- C7 (witness): the amended dispatch at a concrete handler whose "initialized"
notification handler raises an ordinary exception before shutdown: the
exception is logged and the state is unchanged. -/
theorem claim7_witness :
    (Handler.receive_payload
        { on_notification_handlers := [("initialized", fun _ => .raiseExc "boom")] }
        (.obj [("method", .str "initialized"), ("params", .null)])).1 =
      { on_notification_handlers := [("initialized", fun _ => .raiseExc "boom")] } ∧
    (Handler.receive_payload
        { on_notification_handlers := [("initialized", fun _ => .raiseExc "boom")] }
        (.obj [("method", .str "initialized"), ("params", .null)])).2 =
      (if ({ on_notification_handlers := [("initialized", fun _ => .raiseExc "boom")] } : Handler).hasLogger then
        [Event.recvLogged (.obj [("method", .str "initialized"), ("params", .null)])] else []) ++
      specNotifEvents { on_notification_handlers := [("initialized", fun _ => .raiseExc "boom")] }
        (.obj [("method", .str "initialized"), ("params", .null)]) :=
  claim7_amended { on_notification_handlers := [("initialized", fun _ => .raiseExc "boom")] }
    (.obj [("method", .str "initialized"), ("params", .null)]) rfl rfl

/-- C6: an inbound payload with both "method" and "id" is dispatched as a
server→client request, and the reply written to the child is: a
method-not-found error response when no handler is registered; an error
response with the raised error's code when the handler raises a protocol
`Error`; an `InternalError` response carrying the exception's message when
it raises any other exception; and a result response otherwise. -/
theorem claim6_request_dispatch (s : Handler) (p : JVal) (pr : ProcessHandle)
    (hm : hasKey p "method" = true) (hi : hasKey p "id" = true)
    (hp : s.process = some pr) (hin : pr.hasStdin = true) :
    sentPayloads (s.receive_payload p).2 = specRequestReply s p := by
  have hsend : ∀ q : JVal, s.sendPayloadEvents q = [.sent q] := by
    intro q
    simp [Handler.sendPayloadEvents, hp, hin]
  have h : (s.request_handler p).2.1 = (specRequestReply s p).map Event.sent ∧
      (s.request_handler p).2.2 = none := by
    unfold Handler.request_handler specRequestReply
    cases hcb : lookupReqCb s.on_request_handlers (getDefault p "method" (.str "")) with
    | none =>
      simp [hcb, Handler.send_error_response, Handler.spawnSend, hsend, make_error_response,
        Error.ofCode, Error.to_lsp, ErrorCodes.toInt]
    | some cb =>
      cases hr : cb (getD p "params") with
      | ok r =>
        simp [hcb, hr, Handler.send_response, Handler.spawnSend, hsend, make_response]
      | raiseError e =>
        simp [hcb, hr, Handler.send_error_response, Handler.spawnSend, hsend, make_error_response,
          Error.to_lsp]
      | raiseExc msg =>
        simp [hcb, hr, Handler.send_error_response, Handler.spawnSend, hsend, make_error_response,
          Error.ofCode, Error.to_lsp, ErrorCodes.toInt]
  unfold Handler.receive_payload
  rw [hm, hi]
  simp only [if_true, h.2]
  cases hlog : s.hasLogger <;>
    simp [h.1, sentPayloads, List.filterMap_append, List.filterMap_map, Function.comp_def,
      List.filterMap_some]

/-- C6 (witness): the dispatch replies at a concrete handler and request
payload whose registered handler raises an ordinary exception. -/
theorem claim6_witness :
    sentPayloads ((Handler.receive_payload
        { process := some ⟨true, true⟩,
          on_request_handlers := [("workspace/configuration", fun _ => .raiseExc "oops")] }
        (.obj [("method", .str "workspace/configuration"), ("id", .num 3)])).2) =
      specRequestReply
        { process := some ⟨true, true⟩,
          on_request_handlers := [("workspace/configuration", fun _ => .raiseExc "oops")] }
        (.obj [("method", .str "workspace/configuration"), ("id", .num 3)]) :=
  claim6_request_dispatch
    { process := some ⟨true, true⟩,
      on_request_handlers := [("workspace/configuration", fun _ => .raiseExc "oops")] }
    (.obj [("method", .str "workspace/configuration"), ("id", .num 3)])
    ⟨true, true⟩ rfl rfl rfl rfl

/-- C10: an inbound response payload whose "id" matches no entry in the
pending-response table does not crash dispatch: the `KeyError` raised by the
pop is caught in `_receive_payload` and logged, the handler state — the
pending table included — is unchanged, so subsequent inbound messages are
dispatched exactly as before. -/
theorem claim10_unknown_id (s : Handler) (p : JVal)
    (hm : hasKey p "method" = false) (hi : hasKey p "id" = true)
    (hno : ∀ k, pyIntKey (getD p "id") = some k → popAssoc s.response_handlers k = none) :
    (s.receive_payload p).1 = s ∧
    (s.receive_payload p).2 =
      (if s.hasLogger then [Event.recvLogged p] else []) ++
      (if s.hasLogger then [Event.clientLog (.payloadError (.keyError (getD p "id")))] else []) := by
  have h : s.response_handler p = (s, [], some (.keyError (getD p "id"))) := by
    unfold Handler.response_handler
    cases hk : pyIntKey (getD p "id") with
    | none => simp [hk]
    | some k => simp [hk, hno k hk]
  unfold Handler.receive_payload
  rw [hm, hi]
  simp [h, Handler.logEvents]

/-- C10 (witness): a response with id 42 against a handler whose pending
table holds only id 1: the lookup failure is logged and nothing changes. -/
theorem claim10_witness :
    (Handler.receive_payload { response_handlers := [(1, ⟨none, none, false⟩)] }
        (.obj [("id", .num 42), ("result", .null)])).1 =
      { response_handlers := [(1, ⟨none, none, false⟩)] } ∧
    (Handler.receive_payload { response_handlers := [(1, ⟨none, none, false⟩)] }
        (.obj [("id", .num 42), ("result", .null)])).2 =
      [Event.recvLogged (.obj [("id", .num 42), ("result", .null)]),
       Event.clientLog (.payloadError (.keyError (.num 42)))] :=
  claim10_unknown_id { response_handlers := [(1, ⟨none, none, false⟩)] }
    (.obj [("id", .num 42), ("result", .null)]) rfl rfl
    (fun k hk => by
      simp [getD, lookupKey, pyIntKey] at hk
      subst hk
      rfl)

/-- C4: during teardown of a still-live child, the supervisor closes stdin,
sends a graceful terminate to every descendant enumerated at signal time and
to the child, waits up to 10 seconds; if the process has not exited it
escalates to kill on the re-enumerated tree and waits up to 2 more seconds;
stdout and stderr are closed afterwards; and the attempted actions are
unchanged when any or all signal deliveries and pipe closures raise. -/
theorem claim4_teardown (w : ProcWorld) (halive : w.returncode = none)
    (hps : w.psutilAvail = true) (ht : w.viewAtTerminate.running = true)
    (hk : w.viewAtKill.running = true) :
    cleanup_process w = specTeardown w ∧
    attemptsOf (cleanup_process w) =
      attemptsOf (cleanup_process
        { w with raisesOnSignal := fun _ _ => false, raisesOnClose := fun _ => false }) := by
  constructor
  · unfold cleanup_process specTeardown terminate_or_kill_process signal_process_tree
    cases hex : w.exitsAfterTerminate <;> simp [halive, hps, ht, hk]
  · unfold cleanup_process terminate_or_kill_process signal_process_tree attemptsOf
    cases hex : w.exitsAfterTerminate <;>
      simp [halive, hps, ht, hk, trySig, tryClose, List.map_map, Function.comp_def]

/-- C4 (witness): the teardown sequence at a concrete world — pid 7 with
descendants 8 and 9 at terminate time, 8 at kill time, terminate timing out,
and every signal and close raising. -/
theorem claim4_witness :
    cleanup_process ⟨7, none, true, ⟨true, [8, 9]⟩, false, ⟨true, [8]⟩,
        fun _ _ => true, fun _ => true⟩ =
      specTeardown ⟨7, none, true, ⟨true, [8, 9]⟩, false, ⟨true, [8]⟩,
        fun _ _ => true, fun _ => true⟩ ∧
    attemptsOf (cleanup_process ⟨7, none, true, ⟨true, [8, 9]⟩, false, ⟨true, [8]⟩,
        fun _ _ => true, fun _ => true⟩) =
      attemptsOf (cleanup_process ⟨7, none, true, ⟨true, [8, 9]⟩, false, ⟨true, [8]⟩,
        fun _ _ => false, fun _ => false⟩) :=
  claim4_teardown ⟨7, none, true, ⟨true, [8, 9]⟩, false, ⟨true, [8]⟩,
    fun _ _ => true, fun _ => true⟩ rfl rfl rfl rfl

/-! ## Request-id lemmas -/

theorem request_handler_request_id (s : Handler) (p : JVal) :
    (s.request_handler p).1.request_id = s.request_id := by
  unfold Handler.request_handler Handler.send_response Handler.send_error_response
    Handler.spawnSend
  cases hcb : lookupReqCb s.on_request_handlers (getDefault p "method" (.str "")) with
  | none => simp [hcb]
  | some cb =>
    cases hr : cb (getD p "params") with
    | ok r => simp [hcb, hr]
    | raiseError e => simp [hcb, hr]
    | raiseExc m => simp [hcb, hr]

theorem notification_handler_fst (s : Handler) (p : JVal) :
    (s.notification_handler p).1 = s := by
  unfold Handler.notification_handler
  cases hcb : lookupNotifCb s.on_notification_handlers (getDefault p "method" (.str "")) with
  | none => simp [hcb]
  | some cb =>
    cases hr : cb (getD p "params") with
    | ok => simp [hcb, hr]
    | cancelled => simp [hcb, hr]
    | raiseExc m =>
      by_cases hsd : (!s.received_shutdown && s.hasLogger) = true <;> simp [hcb, hr, hsd]

theorem response_handler_request_id (s : Handler) (p : JVal) :
    (s.response_handler p).1.request_id = s.request_id := by
  unfold Handler.response_handler
  cases hk : pyIntKey (getD p "id") with
  | none => simp [hk]
  | some k =>
    cases hpop : popAssoc s.response_handlers k with
    | none => simp [hk, hpop]
    | some pr =>
      obtain ⟨req, rest⟩ := pr
      by_cases h1 : (hasKey p "result" && !hasKey p "error") = true
      · simp [hk, hpop, h1]
      · by_cases h2 : (!hasKey p "result" && hasKey p "error") = true
        · cases hfl : Error.from_lsp (getD p "error") <;> simp [hk, hpop, h1, h2, hfl]
        · simp [hk, hpop, h1, h2]

theorem receive_payload_request_id (s : Handler) (p : JVal) :
    (s.receive_payload p).1.request_id = s.request_id := by
  unfold Handler.receive_payload
  by_cases hm : hasKey p "method" = true
  · by_cases hi : hasKey p "id" = true
    · cases herr : (s.request_handler p).2.2 <;>
        simp [hm, hi, herr, request_handler_request_id]
    · cases herr : (s.notification_handler p).2.2 <;>
        simp [hm, hi, herr, notification_handler_fst]
  · by_cases hi : hasKey p "id" = true
    · cases herr : (s.response_handler p).2.2 <;>
        simp [hm, hi, herr, response_handler_request_id]
    · simp [hm, hi]

theorem shutdown_request_id (s : Handler) :
    (s.shutdown).1.request_id = s.request_id + 1 := by
  simp [Handler.shutdown, LspRequest.shutdown, LspNotification.exit, Handler.send_request,
    Handler.send_notification]

theorem stepOp_request_id_le (s : Handler) (op : Op) :
    s.request_id ≤ (s.stepOp op).1.request_id := by
  cases op with
  | sendReq m p =>
    simp only [Handler.stepOp, Handler.send_request]
    omega
  | notify m p => simp [Handler.stepOp, Handler.send_notification]
  | recv p => simp [Handler.stepOp, receive_payload_request_id]
  | shutdownOp =>
    simp only [Handler.stepOp, shutdown_request_id]
    omega
  | stopOp => simp [Handler.stepOp, Handler.stop]

theorem sentIds_lower (ops : List Op) :
    ∀ s : Handler, ∀ i ∈ sentIds s ops, s.request_id ≤ i := by
  induction ops with
  | nil => intro s i hi; simp [sentIds] at hi
  | cons op rest ih =>
    intro s i hi
    cases op with
    | sendReq m p =>
      simp only [sentIds, List.mem_cons] at hi
      rcases hi with h | h
      · omega
      · have h1 := ih (s.stepOp (.sendReq m p)).1 i h
        have h2 := stepOp_request_id_le s (.sendReq m p)
        omega
    | shutdownOp =>
      simp only [sentIds, List.mem_cons] at hi
      rcases hi with h | h
      · omega
      · have h1 := ih (s.stepOp .shutdownOp).1 i h
        have h2 := stepOp_request_id_le s .shutdownOp
        omega
    | notify m p =>
      have h1 := ih (s.stepOp (.notify m p)).1 i (by simpa [sentIds] using hi)
      have h2 := stepOp_request_id_le s (.notify m p)
      omega
    | recv p =>
      have h1 := ih (s.stepOp (.recv p)).1 i (by simpa [sentIds] using hi)
      have h2 := stepOp_request_id_le s (.recv p)
      omega
    | stopOp =>
      have h1 := ih (s.stepOp .stopOp).1 i (by simpa [sentIds] using hi)
      have h2 := stepOp_request_id_le s .stopOp
      omega

theorem sentIds_pairwise_lt (ops : List Op) :
    ∀ s : Handler, (sentIds s ops).Pairwise (· < ·) := by
  induction ops with
  | nil => intro s; simp [sentIds]
  | cons op rest ih =>
    intro s
    cases op with
    | sendReq m p =>
      simp only [sentIds]
      refine List.pairwise_cons.mpr ⟨fun i hi => ?_, ih _⟩
      have h1 := sentIds_lower rest (s.stepOp (.sendReq m p)).1 i hi
      have h2 : (s.stepOp (Op.sendReq m p)).1.request_id = s.request_id + 1 := by
        simp [Handler.stepOp, Handler.send_request]
      omega
    | shutdownOp =>
      simp only [sentIds]
      refine List.pairwise_cons.mpr ⟨fun i hi => ?_, ih _⟩
      have h1 := sentIds_lower rest (s.stepOp .shutdownOp).1 i hi
      have h2 : (s.stepOp Op.shutdownOp).1.request_id = s.request_id + 1 := by
        simp [Handler.stepOp, shutdown_request_id]
      omega
    | notify m p => simp only [sentIds]; exact ih _
    | recv p => simp only [sentIds]; exact ih _
    | stopOp => simp only [sentIds]; exact ih _

/-- C8: across any sequence of session operations, the request ids allocated
by successive `send_request` calls are strictly increasing in send order and
never reused. -/
theorem claim8_request_ids (s : Handler) (ops : List Op) :
    (sentIds s ops).Pairwise (· < ·) ∧ (sentIds s ops).Nodup :=
  ⟨sentIds_pairwise_lt ops s,
   (sentIds_pairwise_lt ops s).imp (fun h => ne_of_lt h)⟩

/-! ## Read-loop lemmas -/

theorem readLine_append (l rest : List Nat) (h10 : 10 ∉ l) :
    readLine (l ++ 10 :: rest) = (l ++ [10], rest) := by
  induction l with
  | nil => simp [readLine]
  | cons b bs ih =>
    have hb : b ≠ 10 := fun h => h10 (h ▸ List.mem_cons_self b bs)
    have h10' : (10 : Nat) ∉ bs := fun h => h10 (List.mem_cons_of_mem b h)
    simp [readLine, hb, ih h10']

theorem readLine_snd_le (s : List Nat) : (readLine s).2.length ≤ s.length := by
  induction s with
  | nil => simp [readLine]
  | cons b bs ih =>
    by_cases hb : b = 10
    · simp [readLine, hb]
    · simp only [readLine, hb, if_false]
      simp only [List.length_cons]
      omega

theorem readLine_snd_lt (s : List Nat) (h : s ≠ []) : (readLine s).2.length < s.length := by
  cases s with
  | nil => exact absurd rfl h
  | cons b bs =>
    by_cases hb : b = 10
    · simp [readLine, hb]
    · have hle := readLine_snd_le bs
      simp only [readLine, hb, if_false, List.length_cons]
      omega

theorem skipToBlankGo_snd_le (f : Nat) :
    ∀ s : List Nat, (skipToBlankGo f s).2.length ≤ s.length := by
  induction f with
  | zero => intro s; simp [skipToBlankGo]
  | succ f ih =>
    intro s
    simp only [skipToBlankGo]
    by_cases hb : ((readLine s).1.isEmpty || (stripBytes (readLine s).1).isEmpty) = true
    · simp only [hb, if_true]
      exact readLine_snd_le s
    · simp only [hb, if_false]
      exact le_trans (ih _) (readLine_snd_le s)

theorem skipToBlank_snd_le (s : List Nat) : (skipToBlank s).2.length ≤ s.length :=
  skipToBlankGo_snd_le (s.length + 1) s

theorem loopGo_fuel (f : Nat) :
    ∀ (g : Nat) (s : List Nat) (acc : List RunEvent),
      s.length < f → s.length < g → loopGo f s acc = loopGo g s acc := by
  induction f with
  | zero => intro g s acc hf; omega
  | succ f ih =>
    intro g s acc hf hg
    cases g with
    | zero => omega
    | succ g =>
      simp only [loopGo]
      by_cases hs : s.isEmpty = true
      · simp [hs]
      · have hsne : s ≠ [] := by
          cases s with
          | nil => simp at hs
          | cons b bs => simp
        have hlt := readLine_snd_lt s hsne
        simp only [hs, if_false]
        cases hcl : content_length (readLine s).1 with
        | error e => exact ih g (readLine s).2 acc (by omega) (by omega)
        | ok v =>
          cases v with
          | none => exact ih g (readLine s).2 acc (by omega) (by omega)
          | some n =>
            have hq := skipToBlank_snd_le (readLine s).2
            by_cases hq1 : (skipToBlank (readLine s).2).1.isEmpty = true
            · simp only [hq1, if_true]
              exact ih g (skipToBlank (readLine s).2).2 acc (by omega) (by omega)
            · simp only [hq1, if_false]
              by_cases hn : n < 0
              · simp [hn]
              · simp only [hn, if_false]
                by_cases hlen : (skipToBlank (readLine s).2).2.length < n.toNat
                · simp [hlen]
                · simp only [hlen, if_false]
                  have hd : ((skipToBlank (readLine s).2).2.drop n.toNat).length ≤
                      (skipToBlank (readLine s).2).2.length := by
                    simp [List.length_drop]
                  exact ih g _ _ (by omega) (by omega)

theorem loopGo_no_log (f : Nat) :
    ∀ (s : List Nat) (acc evs : List RunEvent),
      loopGo f s acc = .ok evs → runLogs evs = runLogs acc := by
  induction f with
  | zero =>
    intro s acc evs h
    simp only [loopGo] at h
    cases h
    rfl
  | succ f ih =>
    intro s acc evs h
    simp only [loopGo] at h
    by_cases hs : s.isEmpty = true
    · simp only [hs, if_true] at h
      cases h
      rfl
    · simp only [hs, if_false] at h
      cases hcl : content_length (readLine s).1 with
      | error e =>
        rw [hcl] at h
        exact ih _ _ _ h
      | ok v =>
        rw [hcl] at h
        cases v with
        | none => exact ih _ _ _ h
        | some n =>
          by_cases hq1 : (skipToBlank (readLine s).2).1.isEmpty = true
          · simp only [hq1, if_true] at h
            exact ih _ _ _ h
          · simp only [hq1, if_false] at h
            by_cases hn : n < 0
            · simp [hn] at h
            · simp only [hn, if_false] at h
              by_cases hlen : (skipToBlank (readLine s).2).2.length < n.toNat
              · simp [hlen] at h
              · simp only [hlen, if_false] at h
                have := ih _ _ _ h
                simpa [runLogs, List.filterMap_append] using this

/-- C3 (counterexample): a stream whose first line carries the unparseable
header "Content-Length: abc" followed by a well-formed frame: the loop skips
the bad line without emitting any log message — the claim's "logs the error"
does not happen — and dispatches the following frame's body. -/
theorem claim3_counterexample :
    run_forever (asciiBytes "Content-Length: abc\r\nContent-Length: 5\r\n\r\nhello") =
      .ok [.dispatched (asciiBytes "hello")] ∧
    runLogs [RunEvent.dispatched (asciiBytes "hello")] = [] := by
  constructor <;> rfl

/-- C3 (amended): the read loop discards lines arriving before a
Content-Length header silently, and on a line whose Content-Length value is
unparseable it also silently (without any log message) resumes scanning with
the next line; in general no iteration of the loop emits a log message. -/
theorem claim3_amended :
    (∀ l rest : List Nat, 10 ∉ l →
      (∀ n, content_length (l ++ [10]) ≠ .ok (some n)) →
      run_forever (l ++ 10 :: rest) = run_forever rest) ∧
    (∀ (s : List Nat) (evs : List RunEvent),
      run_forever s = .ok evs → runLogs evs = []) := by
  constructor
  · intro l rest h10 hbad
    unfold run_forever
    have hne : (l ++ 10 :: rest).isEmpty = false := by
      cases l <;> simp
    have step : loopGo ((l ++ 10 :: rest).length + 1) (l ++ 10 :: rest) [] =
        loopGo ((l ++ 10 :: rest).length) rest [] := by
      simp only [loopGo, hne, if_false, readLine_append l rest h10]
      cases hcl : content_length (l ++ [10]) with
      | error e => rfl
      | ok v =>
        cases v with
        | none => rfl
        | some n => exact absurd hcl (hbad n)
    rw [step]
    exact loopGo_fuel _ _ _ _ (by simp; omega) (by omega)
  · intro s evs h
    have := loopGo_no_log (s.length + 1) s [] evs h
    simpa [runLogs] using this

/-- C3 (witness): the amended read-loop behaviour at concrete streams — a
non-header junk line is skipped with identical results, and the well-formed
remainder produces one dispatched body and no log. -/
theorem claim3_witness :
    run_forever (asciiBytes "junk\r" ++ 10 :: asciiBytes "Content-Length: 2\r\n\r\nok") =
      run_forever (asciiBytes "Content-Length: 2\r\n\r\nok") ∧
    runLogs [RunEvent.dispatched (asciiBytes "ok")] = [] :=
  ⟨claim3_amended.1 (asciiBytes "junk\r") (asciiBytes "Content-Length: 2\r\n\r\nok")
      (by decide)
      (fun n h => by
        simp [show content_length (asciiBytes "junk\r" ++ [10]) = .ok none from rfl] at h),
   claim3_amended.2 (asciiBytes "Content-Length: 2\r\n\r\nok")
      [RunEvent.dispatched (asciiBytes "ok")] (by rfl)⟩

end Multilspy
